import Mathlib

/-!
Verification of the `FFMPEGVideo` frame pump (src/python/src/bindings.cpp).

The C++ class drives a three-stage pipeline — packet reader (`av_read_frame`),
decoder (`avcodec_send_packet` / `avcodec_receive_frame`), and filter graph
(`av_buffersrc_add_frame_flags` / `av_buffersink_get_frame`) — to satisfy one
`GetNextFrame` request at a time.

The embedding below is a shallow translation of `FFMPEGVideo::GetNextFrame`
and `FFMPEGVideo::process_retrieved_frame`.  The libav stages themselves are
external collaborators; they are modelled as an abstract interface `Ext σ`
of state-transformers over an opaque external state `σ`, mirroring exactly
the status outcomes the C++ code branches on (success / EAGAIN / EOF / other
error).  Every libav call the pump makes is recorded in an event trace, so
claims about which stages are polled, and in what order, are statable.

The loops of `GetNextFrame` are unbounded in the C++ source, so the embedding
is fuel-indexed: `none` means the call did not finish within the given fuel,
and `some r` carries the returned value, the updated session state, the
updated external state, the I/O trace, and a tag identifying which `return`
statement of the C++ function produced the result.

The C++ field `current_frame_time_seconds_` is a `double`; it is idealized
here as `ℚ`.  No theorem in this file asserts anything about its numeric
value beyond preservation (claims about exact floating-point results are out
of scope of this embedding).
-/

namespace FFmpeg

/-- AVRational: a rational number as a numerator/denominator pair (libavutil). -/
structure AVRational where
  num : Int
  den : Int
deriving DecidableEq, Repr

/-- An AVFrame as far as the pump inspects it: dimensions, pixel-format tag,
presentation timestamp, best-effort timestamp, the `data[0]` plane pointer
(abstracted to a token) and `linesize[0]`. -/
structure Frame where
  width : Int
  height : Int
  format : Int
  pts : Int
  best_effort_timestamp : Int
  dataPlane : Nat
  linesize : Int
deriving DecidableEq, Repr

/-- An AVPacket as far as the pump inspects it: its owning stream index, with
an identity token standing for the payload. -/
structure Packet where
  stream_index : Int
  pid : Nat
deriving DecidableEq, Repr

/-- The cv::Mat output produced by `process_retrieved_frame`:
`cv::Mat(height, width, cv_type, data[0], linesize[0])`. -/
structure Mat where
  rows : Int
  cols : Int
  cvType : Nat
  dataPlane : Nat
  step0 : Int
deriving DecidableEq, Repr

/-- Outcome of a retrieve-style libav call (`av_buffersink_get_frame`,
`avcodec_receive_frame`): `ret >= 0` with a frame, `AVERROR(EAGAIN)`,
`AVERROR_EOF`, or another negative error code. -/
inductive RecvRes where
  | ok (f : Frame)
  | eagain
  | eof
  | err
deriving DecidableEq, Repr

/-- Outcome of `avcodec_send_packet`: `ret >= 0`, `AVERROR(EAGAIN)`, or
another negative error code (`AVERROR_EOF` included). -/
inductive SendRes where
  | ok
  | eagain
  | err
deriving DecidableEq, Repr

/-- Outcome of `av_buffersrc_add_frame_flags`: the code only distinguishes
`ret >= 0` from `ret < 0`. -/
inductive SubmitRes where
  | ok
  | err
deriving DecidableEq, Repr

/-- Outcome of `av_read_frame`: a packet, `AVERROR_EOF`, or another negative
error code. -/
inductive ReadRes where
  | ok (p : Packet)
  | eof
  | err
deriving DecidableEq, Repr

/-- One stage-I/O event performed by the pump, together with the status the
stage reported.  The trace of a call is the list of these events in order. -/
inductive Ev where
  | sinkGet (r : RecvRes)
  | decRecv (r : RecvRes)
  | readFrame (r : ReadRes)
  | sendPacket (p : Packet) (r : SendRes)
  | sendFlush (r : SendRes)
  | srcAdd (r : SubmitRes)
  | srcFlush (r : SubmitRes)
deriving DecidableEq, Repr

/-- Which `return` statement of `FFMPEGVideo::GetNextFrame` (bindings.cpp)
ended the call.  Tags named `...Fatal`, `sendFail`, `busyStall` and
`processFailed` correspond to error returns; `flushExhausted` is the final
`return false` after the flush drain found no more frames. -/
inductive Exit where
  | notInitialized
  | gotFrame
  | processFailed
  | sinkFatal
  | decFatal
  | readFatal
  | srcAddFatal
  | sendFail
  | busyStall
  | busyDrainFatal
  | busySrcAddFatal
  | busySinkFatal
  | flushDecFatal
  | flushSrcAddFatal
  | flushSrcFlushFatal
  | flushSinkFatal
  | flushExhausted
deriving DecidableEq, Repr

/-- The session-visible member state of `FFMPEGVideo` (the fields read or
written by `GetNextFrame` / `process_retrieved_frame` and exposed through the
getters).  `current_frame_time_seconds_` is a C++ `double`, idealized as `ℚ`. -/
structure Session where
  initialized : Bool
  frame_count_ : Nat
  total_frames_ : Int
  frame_width_ : Int
  frame_height_ : Int
  video_time_base_ : AVRational
  current_frame_pts_ : Int
  current_frame_time_seconds_ : ℚ
  video_stream_idx : Int
deriving DecidableEq, Repr

/-- The result of one `GetNextFrame` call: the returned value (`some mat` for
`return true`, `none` for `return false`), the session state after the call,
the external stage state after the call, the list of stage-I/O events the
call performed, and the exit tag. -/
structure RunResult (σ : Type) where
  ret : Option Mat
  sess : Session
  ext : σ
  trace : List Ev
  how : Exit
deriving DecidableEq, Repr

/-- The external collaborators of the pump (demuxer, decoder, filter graph),
abstracted as deterministic state-transformers over an external state `σ`,
one per libav call site appearing in `GetNextFrame`.  `pixDesc` models
`av_pix_fmt_desc_get`, returning the `nb_components` of a pixel format when
the format is known. -/
structure Ext (σ : Type) where
  sinkGet : σ → RecvRes × σ
  decRecv : σ → RecvRes × σ
  readFrame : σ → ReadRes × σ
  sendPacket : σ → Packet → SendRes × σ
  sendFlush : σ → SendRes × σ
  srcAdd : σ → Frame → SubmitRes × σ
  srcFlush : σ → SubmitRes × σ
  pixDesc : Int → Option Nat

/-- AV_NOPTS_VALUE = INT64_MIN. -/
def AV_NOPTS_VALUE : Int := -(2 ^ 63)

/-- OpenCV type tag CV_8UC1. -/
def CV_8UC1 : Nat := 0

/-- OpenCV type tag CV_8UC3 = CV_MAKETYPE(CV_8U, 3). -/
def CV_8UC3 : Nat := 16

/-- av_q2d: numerator over denominator as an exact rational (the C++ computes
this in `double`). -/
def av_q2d (a : AVRational) : ℚ := (a.num : ℚ) / (a.den : ℚ)

/-- Shallow embedding of `FFMPEGVideo::process_retrieved_frame`
(bindings.cpp lines 132-175).  Looks up the pixel-format descriptor of the
retrieved filtered frame; unknown formats fail, component count 1 selects
CV_8UC1, 3 selects CV_8UC3 and any other count fails — all before any member
is updated.  On success it builds the output matrix, fixes the output
dimensions on the first frame only, increments the frame counter and records
the frame's PTS and its value in seconds. -/
def process_retrieved_frame (pix : Int → Option Nat) (sess : Session)
    (filt_frame : Frame) : Option (Mat × Session) :=
  match pix filt_frame.format with
  | none => none
  | some nb_components =>
    let cvType? : Option Nat :=
      if nb_components = 1 then some CV_8UC1
      else if nb_components = 3 then some CV_8UC3
      else none
    match cvType? with
    | none => none
    | some cv_type =>
      let output_mat : Mat :=
        { rows := filt_frame.height, cols := filt_frame.width,
          cvType := cv_type, dataPlane := filt_frame.dataPlane,
          step0 := filt_frame.linesize }
      let sess1 :=
        if sess.frame_count_ = 0 then
          { sess with frame_width_ := filt_frame.width,
                      frame_height_ := filt_frame.height }
        else sess
      let sess2 :=
        { sess1 with
          frame_count_ := sess1.frame_count_ + 1,
          current_frame_pts_ := filt_frame.pts,
          current_frame_time_seconds_ :=
            if sess.video_time_base_.num ≠ 0 ∧ sess.video_time_base_.den ≠ 0
            then (filt_frame.pts : ℚ) * av_q2d sess.video_time_base_
            else 0 }
      some (output_mat, sess2)

/-- The `return process_retrieved_frame(output_mat)` statement: packages the
two possible outcomes of `process_retrieved_frame` as a `RunResult`. -/
def processExit {σ : Type} (pix : Int → Option Nat) (sess : Session)
    (f : Frame) (ex : σ) (tr : List Ev) : RunResult σ :=
  match process_retrieved_frame pix sess f with
  | some (m, s2) => ⟨some m, s2, ex, tr, Exit.gotFrame⟩
  | none => ⟨none, sess, ex, tr, Exit.processFailed⟩

/-- Result of the packet-submission retry loop: either a `return` from
`GetNextFrame` (`out`), or the packet was finally accepted by the decoder and
the outer loop continues. -/
inductive BusyRes (σ : Type) where
  | out (r : RunResult σ)
  | accepted (ex : σ) (tr : List Ev)
deriving DecidableEq, Repr

/-- Shallow embedding of the packet-send retry loop of
`FFMPEGVideo::GetNextFrame` (bindings.cpp lines 236-283):
`while ((send_packet_ret = avcodec_send_packet(dec_ctx, pkt)) == EAGAIN)`
drain one decoded frame, feed it to the filter graph, opportunistically try
the buffersink and return immediately if it produced a frame, then retry the
same packet; if the drain reports EAGAIN or EOF the loop breaks and the
still-negative send result makes the call return false. -/
def busyLoop {σ : Type} (E : Ext σ) (sess : Session) (p : Packet) :
    Nat → σ → List Ev → Option (BusyRes σ)
  | 0, _, _ => none
  | Nat.succ n, ex, tr =>
    match E.sendPacket ex p with
    | (SendRes.ok, ex1) =>
      some (BusyRes.accepted ex1 (tr ++ [Ev.sendPacket p SendRes.ok]))
    | (SendRes.err, ex1) =>
      some (BusyRes.out ⟨none, sess, ex1, tr ++ [Ev.sendPacket p SendRes.err],
        Exit.sendFail⟩)
    | (SendRes.eagain, ex1) =>
      let tr1 := tr ++ [Ev.sendPacket p SendRes.eagain]
      match E.decRecv ex1 with
      | (RecvRes.ok f, ex2) =>
        let tr2 := tr1 ++ [Ev.decRecv (RecvRes.ok f)]
        match E.srcAdd ex2 f with
        | (SubmitRes.err, ex3) =>
          some (BusyRes.out ⟨none, sess, ex3, tr2 ++ [Ev.srcAdd SubmitRes.err],
            Exit.busySrcAddFatal⟩)
        | (SubmitRes.ok, ex3) =>
          let tr3 := tr2 ++ [Ev.srcAdd SubmitRes.ok]
          match E.sinkGet ex3 with
          | (RecvRes.ok g, ex4) =>
            some (BusyRes.out
              (processExit E.pixDesc sess g ex4
                (tr3 ++ [Ev.sinkGet (RecvRes.ok g)])))
          | (RecvRes.eagain, ex4) =>
            busyLoop E sess p n ex4 (tr3 ++ [Ev.sinkGet RecvRes.eagain])
          | (RecvRes.eof, ex4) =>
            busyLoop E sess p n ex4 (tr3 ++ [Ev.sinkGet RecvRes.eof])
          | (RecvRes.err, ex4) =>
            some (BusyRes.out ⟨none, sess, ex4,
              tr3 ++ [Ev.sinkGet RecvRes.err], Exit.busySinkFatal⟩)
      | (RecvRes.eagain, ex2) =>
        some (BusyRes.out ⟨none, sess, ex2, tr1 ++ [Ev.decRecv RecvRes.eagain],
          Exit.busyStall⟩)
      | (RecvRes.eof, ex2) =>
        some (BusyRes.out ⟨none, sess, ex2, tr1 ++ [Ev.decRecv RecvRes.eof],
          Exit.busyStall⟩)
      | (RecvRes.err, ex2) =>
        some (BusyRes.out ⟨none, sess, ex2, tr1 ++ [Ev.decRecv RecvRes.err],
          Exit.busyDrainFatal⟩)

/-- Result of the main `while (!frame_retrieved)` loop: either a `return`
from inside the loop, or a `break` with `end_of_input_reached = true`. -/
inductive LoopRes (σ : Type) where
  | out (r : RunResult σ)
  | eofBreak (ex : σ) (tr : List Ev)
deriving DecidableEq, Repr

/-- Shallow embedding of the main loop of `FFMPEGVideo::GetNextFrame`
(bindings.cpp lines 187-286).  Per iteration: try the buffersink first; on
EAGAIN try the decoder; if the decoder produced a frame, set its PTS from the
best-effort timestamp, feed it to the filter graph and loop back immediately;
only if the decoder also reported EAGAIN read a packet, submitting it via the
retry loop when it belongs to the video stream.  EOF from the buffersink, the
decoder, or the packet reader breaks out with `end_of_input_reached`. -/
def mainLoop {σ : Type} (E : Ext σ) (sess : Session) :
    Nat → σ → List Ev → Option (LoopRes σ)
  | 0, _, _ => none
  | Nat.succ n, ex, tr =>
    match E.sinkGet ex with
    | (RecvRes.ok f, ex1) =>
      some (LoopRes.out
        (processExit E.pixDesc sess f ex1 (tr ++ [Ev.sinkGet (RecvRes.ok f)])))
    | (RecvRes.eof, ex1) =>
      some (LoopRes.eofBreak ex1 (tr ++ [Ev.sinkGet RecvRes.eof]))
    | (RecvRes.err, ex1) =>
      some (LoopRes.out ⟨none, sess, ex1, tr ++ [Ev.sinkGet RecvRes.err],
        Exit.sinkFatal⟩)
    | (RecvRes.eagain, ex1) =>
      let tr1 := tr ++ [Ev.sinkGet RecvRes.eagain]
      match E.decRecv ex1 with
      | (RecvRes.ok f, ex2) =>
        let f1 : Frame := { f with pts := f.best_effort_timestamp }
        let tr2 := tr1 ++ [Ev.decRecv (RecvRes.ok f)]
        match E.srcAdd ex2 f1 with
        | (SubmitRes.err, ex3) =>
          some (LoopRes.out ⟨none, sess, ex3, tr2 ++ [Ev.srcAdd SubmitRes.err],
            Exit.srcAddFatal⟩)
        | (SubmitRes.ok, ex3) =>
          mainLoop E sess n ex3 (tr2 ++ [Ev.srcAdd SubmitRes.ok])
      | (RecvRes.eof, ex2) =>
        some (LoopRes.eofBreak ex2 (tr1 ++ [Ev.decRecv RecvRes.eof]))
      | (RecvRes.err, ex2) =>
        some (LoopRes.out ⟨none, sess, ex2, tr1 ++ [Ev.decRecv RecvRes.err],
          Exit.decFatal⟩)
      | (RecvRes.eagain, ex2) =>
        let tr2 := tr1 ++ [Ev.decRecv RecvRes.eagain]
        match E.readFrame ex2 with
        | (ReadRes.eof, ex3) =>
          some (LoopRes.eofBreak ex3 (tr2 ++ [Ev.readFrame ReadRes.eof]))
        | (ReadRes.err, ex3) =>
          some (LoopRes.out ⟨none, sess, ex3,
            tr2 ++ [Ev.readFrame ReadRes.err], Exit.readFatal⟩)
        | (ReadRes.ok p, ex3) =>
          let tr3 := tr2 ++ [Ev.readFrame (ReadRes.ok p)]
          if p.stream_index = sess.video_stream_idx then
            match busyLoop E sess p n ex3 tr3 with
            | none => none
            | some (BusyRes.out r) => some (LoopRes.out r)
            | some (BusyRes.accepted ex4 tr4) => mainLoop E sess n ex4 tr4
          else
            mainLoop E sess n ex3 tr3

/-- Result of the decoder flush-drain loop inside the flushing logic: either
a `return` from `GetNextFrame`, or the drain completed (EAGAIN/EOF). -/
inductive DrainRes (σ : Type) where
  | out (r : RunResult σ)
  | done (ex : σ) (tr : List Ev)
deriving DecidableEq, Repr

/-- Shallow embedding of the decoder drain loop of the flushing logic
(bindings.cpp lines 293-310): receive flushed frames from the decoder until
EAGAIN/EOF, setting each frame's PTS from its best-effort timestamp and
feeding it to the filter graph. -/
def flushDecDrain {σ : Type} (E : Ext σ) (sess : Session) :
    Nat → σ → List Ev → Option (DrainRes σ)
  | 0, _, _ => none
  | Nat.succ n, ex, tr =>
    match E.decRecv ex with
    | (RecvRes.eagain, ex1) =>
      some (DrainRes.done ex1 (tr ++ [Ev.decRecv RecvRes.eagain]))
    | (RecvRes.eof, ex1) =>
      some (DrainRes.done ex1 (tr ++ [Ev.decRecv RecvRes.eof]))
    | (RecvRes.err, ex1) =>
      some (DrainRes.out ⟨none, sess, ex1, tr ++ [Ev.decRecv RecvRes.err],
        Exit.flushDecFatal⟩)
    | (RecvRes.ok f, ex1) =>
      let f1 : Frame := { f with pts := f.best_effort_timestamp }
      let tr1 := tr ++ [Ev.decRecv (RecvRes.ok f)]
      match E.srcAdd ex1 f1 with
      | (SubmitRes.err, ex2) =>
        some (DrainRes.out ⟨none, sess, ex2, tr1 ++ [Ev.srcAdd SubmitRes.err],
          Exit.flushSrcAddFatal⟩)
      | (SubmitRes.ok, ex2) =>
        flushDecDrain E sess n ex2 (tr1 ++ [Ev.srcAdd SubmitRes.ok])

/-- Shallow embedding of the buffersink drain after the buffer source was
flushed (bindings.cpp lines 319-329).  Every branch of the C++ `while (true)`
body exits it, so this is a single pass: a produced frame is returned through
`process_retrieved_frame`; EAGAIN/EOF breaks to the final `return false`;
any other error returns false. -/
def flushSinkDrain {σ : Type} (E : Ext σ) (sess : Session) (ex : σ)
    (tr : List Ev) : RunResult σ :=
  match E.sinkGet ex with
  | (RecvRes.ok f, ex1) =>
    processExit E.pixDesc sess f ex1 (tr ++ [Ev.sinkGet (RecvRes.ok f)])
  | (RecvRes.eagain, ex1) =>
    ⟨none, sess, ex1, tr ++ [Ev.sinkGet RecvRes.eagain], Exit.flushExhausted⟩
  | (RecvRes.eof, ex1) =>
    ⟨none, sess, ex1, tr ++ [Ev.sinkGet RecvRes.eof], Exit.flushExhausted⟩
  | (RecvRes.err, ex1) =>
    ⟨none, sess, ex1, tr ++ [Ev.sinkGet RecvRes.err], Exit.flushSinkFatal⟩

/-- Shallow embedding of the flushing logic of `FFMPEGVideo::GetNextFrame`
(bindings.cpp lines 289-330), entered when `end_of_input_reached` is set:
send the decoder a flush packet (return value ignored), drain the decoder
into the filter graph, flush the buffer source, then drain the buffersink. -/
def flushSeq {σ : Type} (E : Ext σ) (sess : Session) (fuel : Nat) (ex : σ)
    (tr : List Ev) : Option (RunResult σ) :=
  match E.sendFlush ex with
  | (r0, ex1) =>
    let tr1 := tr ++ [Ev.sendFlush r0]
    match flushDecDrain E sess fuel ex1 tr1 with
    | none => none
    | some (DrainRes.out r) => some r
    | some (DrainRes.done ex2 tr2) =>
      match E.srcFlush ex2 with
      | (SubmitRes.err, ex3) =>
        some ⟨none, sess, ex3, tr2 ++ [Ev.srcFlush SubmitRes.err],
          Exit.flushSrcFlushFatal⟩
      | (SubmitRes.ok, ex3) =>
        some (flushSinkDrain E sess ex3 (tr2 ++ [Ev.srcFlush SubmitRes.ok]))

/-- Shallow embedding of `FFMPEGVideo::GetNextFrame` (bindings.cpp lines
177-332).  If the object is not initialized the call returns false at once,
touching no stage.  Otherwise the main loop runs; a `break` (end of input)
enters the flushing logic. -/
def GetNextFrame {σ : Type} (E : Ext σ) (fuel : Nat) (sess : Session)
    (ex : σ) : Option (RunResult σ) :=
  if sess.initialized then
    match mainLoop E sess fuel ex [] with
    | none => none
    | some (LoopRes.out r) => some r
    | some (LoopRes.eofBreak ex1 tr1) => flushSeq E sess fuel ex1 tr1
  else
    some ⟨none, sess, ex, [], Exit.notInitialized⟩

/-- The member-initializer list of the `FFMPEGVideo` constructor
(bindings.cpp lines 104-113): counters at zero, dimensions zero, time base
0/1, PTS at AV_NOPTS_VALUE, not initialized. -/
def FFMPEGVideo_new : Session :=
  { initialized := false, frame_count_ := 0, total_frames_ := 0,
    frame_width_ := 0, frame_height_ := 0, video_time_base_ := ⟨0, 1⟩,
    current_frame_pts_ := AV_NOPTS_VALUE, current_frame_time_seconds_ := 0,
    video_stream_idx := -1 }

/-- The session-field assignments performed by a successful
`FFMPEGVideo::init` (bindings.cpp lines 409, 412-418, 630-631) together
with the constructor setting `initialized` from init's result (line 124).
The concrete values come from the opened stream and the configured filter
graph and are parameters here. -/
def initSession (s : Session) (tb : AVRational) (vidx : Int) (total : Int)
    (w h : Int) : Session :=
  { s with initialized := true, video_time_base_ := tb,
           video_stream_idx := vidx, total_frames_ := total,
           frame_width_ := w, frame_height_ := h }

/-- Invariant tying a call result to the session it started from: either the
call returned false and left the session untouched, or it returned a matrix
obtained from `process_retrieved_frame` on some retrieved frame, with the
session updated accordingly (and the exit tag is `gotFrame` exactly in the
second case). -/
def sessOutcome {σ : Type} (pix : Int → Option Nat) (sess : Session)
    (r : RunResult σ) : Prop :=
  (r.ret = none ∧ r.sess = sess ∧ r.how ≠ Exit.gotFrame) ∨
  (∃ f m s2, process_retrieved_frame pix sess f = some (m, s2) ∧
    r.ret = some m ∧ r.sess = s2 ∧ r.how = Exit.gotFrame)

theorem sessOutcome_none {σ : Type} (pix : Int → Option Nat) (sess : Session)
    (ex : σ) (tr : List Ev) (e : Exit) (he : e ≠ Exit.gotFrame) :
    sessOutcome pix sess (⟨none, sess, ex, tr, e⟩ : RunResult σ) :=
  Or.inl ⟨rfl, rfl, he⟩

theorem processExit_sessOutcome {σ : Type} (pix : Int → Option Nat)
    (sess : Session) (f : Frame) (ex : σ) (tr : List Ev) :
    sessOutcome pix sess (processExit pix sess f ex tr) := by
  rcases h : process_retrieved_frame pix sess f with _ | ⟨m, s2⟩
  · refine Or.inl ?_
    simp [processExit, h]
  · refine Or.inr ⟨f, m, s2, h, ?_, ?_, ?_⟩ <;> simp [processExit, h]

theorem busyLoop_out_sessOutcome {σ : Type} (E : Ext σ) (sess : Session)
    (p : Packet) :
    ∀ (n : Nat) (ex : σ) (tr : List Ev) (r : RunResult σ),
      busyLoop E sess p n ex tr = some (BusyRes.out r) →
      sessOutcome E.pixDesc sess r := by
  intro n
  induction n with
  | zero =>
    intro ex tr r h
    simp [busyLoop] at h
  | succ n ih =>
    intro ex tr r h
    rcases hsp : E.sendPacket ex p with ⟨sr, ex1⟩
    simp only [busyLoop, hsp] at h
    cases sr with
    | ok => simp at h
    | err =>
      injection h with h1
      injection h1 with h2
      subst h2
      exact sessOutcome_none _ _ _ _ _ (by decide)
    | eagain =>
      rcases hdr : E.decRecv ex1 with ⟨dr, ex2⟩
      simp only [hdr] at h
      cases dr with
      | ok f =>
        rcases hsa : E.srcAdd ex2 f with ⟨ar, ex3⟩
        simp only [hsa] at h
        cases ar with
        | err =>
          injection h with h1
          injection h1 with h2
          subst h2
          exact sessOutcome_none _ _ _ _ _ (by decide)
        | ok =>
          rcases hsg : E.sinkGet ex3 with ⟨gr, ex4⟩
          simp only [hsg] at h
          cases gr with
          | ok g =>
            injection h with h1
            injection h1 with h2
            subst h2
            exact processExit_sessOutcome E.pixDesc sess g ex4 _
          | eagain => exact ih ex4 _ r h
          | eof => exact ih ex4 _ r h
          | err =>
            injection h with h1
            injection h1 with h2
            subst h2
            exact sessOutcome_none _ _ _ _ _ (by decide)
      | eagain =>
        injection h with h1
        injection h1 with h2
        subst h2
        exact sessOutcome_none _ _ _ _ _ (by decide)
      | eof =>
        injection h with h1
        injection h1 with h2
        subst h2
        exact sessOutcome_none _ _ _ _ _ (by decide)
      | err =>
        injection h with h1
        injection h1 with h2
        subst h2
        exact sessOutcome_none _ _ _ _ _ (by decide)

theorem mainLoop_out_sessOutcome {σ : Type} (E : Ext σ) (sess : Session) :
    ∀ (n : Nat) (ex : σ) (tr : List Ev) (r : RunResult σ),
      mainLoop E sess n ex tr = some (LoopRes.out r) →
      sessOutcome E.pixDesc sess r := by
  intro n
  induction n with
  | zero =>
    intro ex tr r h
    simp [mainLoop] at h
  | succ n ih =>
    intro ex tr r h
    rcases hsg : E.sinkGet ex with ⟨gr, ex1⟩
    simp only [mainLoop, hsg] at h
    cases gr with
    | ok f =>
      injection h with h1
      injection h1 with h2
      subst h2
      exact processExit_sessOutcome E.pixDesc sess f ex1 _
    | eof => simp at h
    | err =>
      injection h with h1
      injection h1 with h2
      subst h2
      exact sessOutcome_none _ _ _ _ _ (by decide)
    | eagain =>
      rcases hdr : E.decRecv ex1 with ⟨dr, ex2⟩
      simp only [hdr] at h
      cases dr with
      | ok f =>
        rcases hsa : E.srcAdd ex2 { f with pts := f.best_effort_timestamp }
          with ⟨ar, ex3⟩
        simp only [hsa] at h
        cases ar with
        | err =>
          injection h with h1
          injection h1 with h2
          subst h2
          exact sessOutcome_none _ _ _ _ _ (by decide)
        | ok => exact ih ex3 _ r h
      | eof => simp at h
      | err =>
        injection h with h1
        injection h1 with h2
        subst h2
        exact sessOutcome_none _ _ _ _ _ (by decide)
      | eagain =>
        rcases hrf : E.readFrame ex2 with ⟨rr, ex3⟩
        simp only [hrf] at h
        cases rr with
        | eof => simp at h
        | err =>
          injection h with h1
          injection h1 with h2
          subst h2
          exact sessOutcome_none _ _ _ _ _ (by decide)
        | ok p =>
          dsimp only at h
          by_cases hidx : p.stream_index = sess.video_stream_idx
          · rw [if_pos hidx] at h
            rcases hbl : busyLoop E sess p n ex3
                (tr ++ [Ev.sinkGet RecvRes.eagain] ++ [Ev.decRecv RecvRes.eagain]
                  ++ [Ev.readFrame (ReadRes.ok p)]) with _ | br
            · rw [hbl] at h
              simp at h
            · rw [hbl] at h
              cases br with
              | out r2 =>
                injection h with h1
                injection h1 with h2
                subst h2
                exact busyLoop_out_sessOutcome E sess p n ex3 _ r2 hbl
              | accepted ex4 tr4 => exact ih ex4 tr4 r h
          · rw [if_neg hidx] at h
            exact ih ex3 _ r h

theorem flushDecDrain_out_sessOutcome {σ : Type} (E : Ext σ) (sess : Session) :
    ∀ (n : Nat) (ex : σ) (tr : List Ev) (r : RunResult σ),
      flushDecDrain E sess n ex tr = some (DrainRes.out r) →
      sessOutcome E.pixDesc sess r := by
  intro n
  induction n with
  | zero =>
    intro ex tr r h
    simp [flushDecDrain] at h
  | succ n ih =>
    intro ex tr r h
    rcases hdr : E.decRecv ex with ⟨dr, ex1⟩
    simp only [flushDecDrain, hdr] at h
    cases dr with
    | ok f =>
      rcases hsa : E.srcAdd ex1 { f with pts := f.best_effort_timestamp }
        with ⟨ar, ex2⟩
      simp only [hsa] at h
      cases ar with
      | err =>
        injection h with h1
        injection h1 with h2
        subst h2
        exact sessOutcome_none _ _ _ _ _ (by decide)
      | ok => exact ih ex2 _ r h
    | eagain => simp at h
    | eof => simp at h
    | err =>
      injection h with h1
      injection h1 with h2
      subst h2
      exact sessOutcome_none _ _ _ _ _ (by decide)

theorem flushSinkDrain_sessOutcome {σ : Type} (E : Ext σ) (sess : Session)
    (ex : σ) (tr : List Ev) :
    sessOutcome E.pixDesc sess (flushSinkDrain E sess ex tr) := by
  rcases hsg : E.sinkGet ex with ⟨gr, ex1⟩
  cases gr with
  | ok f =>
    simp only [flushSinkDrain, hsg]
    exact processExit_sessOutcome E.pixDesc sess f ex1 _
  | eagain =>
    simp only [flushSinkDrain, hsg]
    exact sessOutcome_none _ _ _ _ _ (by decide)
  | eof =>
    simp only [flushSinkDrain, hsg]
    exact sessOutcome_none _ _ _ _ _ (by decide)
  | err =>
    simp only [flushSinkDrain, hsg]
    exact sessOutcome_none _ _ _ _ _ (by decide)

theorem flushSeq_sessOutcome {σ : Type} (E : Ext σ) (sess : Session)
    (fuel : Nat) (ex : σ) (tr : List Ev) (r : RunResult σ)
    (h : flushSeq E sess fuel ex tr = some r) :
    sessOutcome E.pixDesc sess r := by
  rcases hsf : E.sendFlush ex with ⟨r0, ex1⟩
  simp only [flushSeq, hsf] at h
  rcases hdd : flushDecDrain E sess fuel ex1 (tr ++ [Ev.sendFlush r0])
    with _ | dres
  · rw [hdd] at h
    simp at h
  · rw [hdd] at h
    cases dres with
    | out r2 =>
      injection h with h1
      subst h1
      exact flushDecDrain_out_sessOutcome E sess fuel ex1 _ r2 hdd
    | done ex2 tr2 =>
      dsimp only at h
      rcases hfl : E.srcFlush ex2 with ⟨fr, ex3⟩
      rw [hfl] at h
      cases fr with
      | err =>
        injection h with h1
        subst h1
        exact sessOutcome_none _ _ _ _ _ (by decide)
      | ok =>
        injection h with h1
        subst h1
        exact flushSinkDrain_sessOutcome E sess ex3 _

theorem getNextFrame_sessOutcome {σ : Type} (E : Ext σ) (fuel : Nat)
    (sess : Session) (ex : σ) (r : RunResult σ)
    (h : GetNextFrame E fuel sess ex = some r) :
    sessOutcome E.pixDesc sess r := by
  unfold GetNextFrame at h
  by_cases hi : sess.initialized = true
  · rw [if_pos hi] at h
    rcases hml : mainLoop E sess fuel ex [] with _ | lres
    · rw [hml] at h
      simp at h
    · rw [hml] at h
      cases lres with
      | out r2 =>
        injection h with h1
        subst h1
        exact mainLoop_out_sessOutcome E sess fuel ex [] r2 hml
      | eofBreak ex1 tr1 => exact flushSeq_sessOutcome E sess fuel ex1 tr1 r h
  · rw [if_neg hi] at h
    injection h with h1
    subst h1
    exact sessOutcome_none _ _ _ _ _ (by decide)

theorem process_some_fields {pix : Int → Option Nat} {sess : Session}
    {f : Frame} {m : Mat} {s2 : Session}
    (h : process_retrieved_frame pix sess f = some (m, s2)) :
    s2.frame_count_ = sess.frame_count_ + 1 ∧
    (sess.frame_count_ ≠ 0 →
      s2.frame_width_ = sess.frame_width_ ∧
      s2.frame_height_ = sess.frame_height_) := by
  unfold process_retrieved_frame at h
  rcases hp : pix f.format with _ | nb
  · rw [hp] at h
    exact absurd h (by simp)
  · rw [hp] at h
    dsimp only at h
    by_cases h1 : nb = 1
    · rw [if_pos h1] at h
      dsimp only at h
      injection h with h2
      injection h2 with hm hs
      subst hs
      by_cases h0 : sess.frame_count_ = 0 <;> simp [h0]
    · rw [if_neg h1] at h
      by_cases h3 : nb = 3
      · rw [if_pos h3] at h
        dsimp only at h
        injection h with h2
        injection h2 with hm hs
        subst hs
        by_cases h0 : sess.frame_count_ = 0 <;> simp [h0]
      · rw [if_neg h3] at h
        exact absurd h (by simp)

theorem process_components (pix : Int → Option Nat) (sess : Session)
    (f : Frame) (nb : Nat) (h : pix f.format = some nb) :
    (nb = 1 → ∃ s2, process_retrieved_frame pix sess f =
      some (⟨f.height, f.width, CV_8UC1, f.dataPlane, f.linesize⟩, s2)) ∧
    (nb = 3 → ∃ s2, process_retrieved_frame pix sess f =
      some (⟨f.height, f.width, CV_8UC3, f.dataPlane, f.linesize⟩, s2)) ∧
    (nb ≠ 1 → nb ≠ 3 → process_retrieved_frame pix sess f = none) := by
  unfold process_retrieved_frame
  rw [h]
  dsimp only
  refine ⟨?_, ?_, ?_⟩
  · intro h1
    rw [if_pos h1]
    exact ⟨_, rfl⟩
  · intro h3
    by_cases h1 : nb = 1
    · rw [h1] at h3
      exact absurd h3 (by decide)
    · rw [if_neg h1, if_pos h3]
      exact ⟨_, rfl⟩
  · intro h1 h3
    rw [if_neg h1, if_neg h3]

theorem process_none_of_unknown (pix : Int → Option Nat) (sess : Session)
    (f : Frame) (h : pix f.format = none) :
    process_retrieved_frame pix sess f = none := by
  unfold process_retrieved_frame
  rw [h]

/-- Exit tags corresponding to the error returns of `GetNextFrame` (a stage
reported a fatal status, the busy-drain stalled, or the retrieved frame could
not be converted).  `gotFrame`, the clean flush exhaustion and the
not-initialized early return are not fatal aborts. -/
def isFatalExit : Exit → Bool
  | Exit.notInitialized => false
  | Exit.gotFrame => false
  | Exit.flushExhausted => false
  | _ => true

/-- True exactly for the event recording that packet `p` was accepted by
`avcodec_send_packet`. -/
def isOkSend (p : Packet) : Ev → Bool
  | Ev.sendPacket q SendRes.ok => decide (q = p)
  | _ => false

/-- Number of times packet `p` was accepted by the decoder in a trace. -/
def sendOkCount (p : Packet) (tr : List Ev) : Nat := tr.countP (isOkSend p)

/-- Whether the packet-send retry loop ended with the packet accepted. -/
def isAccepted {σ : Type} : BusyRes σ → Bool
  | BusyRes.accepted _ _ => true
  | BusyRes.out _ => false

/-- The trace carried by a `BusyRes`. -/
def busyResTrace {σ : Type} : BusyRes σ → List Ev
  | BusyRes.out r => r.trace
  | BusyRes.accepted _ tr => tr

/-- A scripted external world for concrete runs: each libav operation pops
the next response from its queue.  The defaults once a queue is empty match
an exhausted pipeline: retrieves and reads report EOF, sends are accepted,
flushing an already-closed buffer source fails (EINVAL). -/
structure Script where
  sinkQ : List RecvRes
  decQ : List RecvRes
  readQ : List ReadRes
  sendQ : List SendRes
  srcAddQ : List SubmitRes
  sendFlushQ : List SendRes
  srcFlushQ : List SubmitRes
deriving DecidableEq, Repr

/-- Pop the head of a response queue, with a default for the empty queue. -/
def pop {α : Type} (d : α) : List α → α × List α
  | [] => (d, [])
  | x :: xs => (x, xs)

/-- The `Ext` interface over a `Script` state. -/
def scriptExt (pix : Int → Option Nat) : Ext Script :=
  { sinkGet := fun ex =>
      ((pop RecvRes.eof ex.sinkQ).1, { ex with sinkQ := (pop RecvRes.eof ex.sinkQ).2 }),
    decRecv := fun ex =>
      ((pop RecvRes.eof ex.decQ).1, { ex with decQ := (pop RecvRes.eof ex.decQ).2 }),
    readFrame := fun ex =>
      ((pop ReadRes.eof ex.readQ).1, { ex with readQ := (pop ReadRes.eof ex.readQ).2 }),
    sendPacket := fun ex _ =>
      ((pop SendRes.ok ex.sendQ).1, { ex with sendQ := (pop SendRes.ok ex.sendQ).2 }),
    sendFlush := fun ex =>
      ((pop SendRes.err ex.sendFlushQ).1, { ex with sendFlushQ := (pop SendRes.err ex.sendFlushQ).2 }),
    srcAdd := fun ex _ =>
      ((pop SubmitRes.ok ex.srcAddQ).1, { ex with srcAddQ := (pop SubmitRes.ok ex.srcAddQ).2 }),
    srcFlush := fun ex =>
      ((pop SubmitRes.err ex.srcFlushQ).1, { ex with srcFlushQ := (pop SubmitRes.err ex.srcFlushQ).2 }),
    pixDesc := pix }

/-- A sample pixel-format table: format 0 is a 3-component format, format 1 a
1-component format, format 5 a 4-component format, everything else unknown. -/
def pix0 : Int → Option Nat := fun fmt =>
  if fmt = 0 then some 3 else if fmt = 1 then some 1
  else if fmt = 5 then some 4 else none

/-- A successfully initialized session on video stream 0.  Its time base has
numerator 0 (an unset stream time base), so concrete runs exercise the
`num != 0 && den != 0` guard of `process_retrieved_frame` and store 0.0
seconds, keeping every script run computable by `decide`. -/
def sess0 : Session :=
  initSession FFMPEGVideo_new ⟨0, 30⟩ 0 10 1280 720

/-- The all-queues-empty script state. -/
def script0 : Script :=
  { sinkQ := [], decQ := [], readQ := [], sendQ := [], srcAddQ := [],
    sendFlushQ := [], srcFlushQ := [] }

/-- A sample 3-component finished frame (format 0) with PTS 30. -/
def frameA : Frame :=
  { width := 1280, height := 720, format := 0, pts := 30,
    best_effort_timestamp := 30, dataPlane := 7, linesize := 3840 }

/-- A script delivering one finished frame straight from the buffersink. -/
def scrFrame : Script := { script0 with sinkQ := [RecvRes.ok frameA] }

/-- A script whose very first buffersink retrieve reports a fatal error. -/
def scrErr : Script := { script0 with sinkQ := [RecvRes.err] }

/-- The default result used when extracting a concrete run. -/
def dfltRun : RunResult Script := ⟨none, sess0, script0, [], Exit.notInitialized⟩

/-- Extract the concrete result of a scripted `GetNextFrame` run. -/
def runOf (fuel : Nat) (sess : Session) (ex : Script) : RunResult Script :=
  (GetNextFrame (scriptExt pix0) fuel sess ex).getD dfltRun

/-- C9: if construction/initialization failed, every GetNextFrame call
returns no frame immediately, performs no stage I/O (empty trace, external
state untouched) and leaves every session field unchanged. -/
theorem c9_uninitialized_noop {σ : Type} (E : Ext σ) (fuel : Nat)
    (sess : Session) (ex : σ) (h : sess.initialized = false) :
    GetNextFrame E fuel sess ex =
      some ⟨none, sess, ex, [], Exit.notInitialized⟩ := by
  unfold GetNextFrame
  rw [if_neg (by simp [h])]

theorem c9_uninitialized_noop_witness :
    GetNextFrame (scriptExt pix0) 3 FFMPEGVideo_new script0 =
      some ⟨none, FFMPEGVideo_new, script0, [], Exit.notInitialized⟩ :=
  c9_uninitialized_noop (scriptExt pix0) 3 FFMPEGVideo_new script0 rfl

/-- C5: the frame counter starts at 0 after construction and initialization;
every successful GetNextFrame call increments it by exactly one and every
unsuccessful call leaves it unchanged — hence the ids reported for returned
frames are strictly increasing and gap-free, 1..N. -/
theorem c5_frame_counter {σ : Type} (E : Ext σ) (fuel : Nat) (sess : Session)
    (ex : σ) (r : RunResult σ) (h : GetNextFrame E fuel sess ex = some r) :
    (∀ tb vidx total w hh,
      (initSession FFMPEGVideo_new tb vidx total w hh).frame_count_ = 0) ∧
    (∀ m, r.ret = some m → r.sess.frame_count_ = sess.frame_count_ + 1) ∧
    (r.ret = none → r.sess.frame_count_ = sess.frame_count_) := by
  refine ⟨fun _ _ _ _ _ => rfl, ?_, ?_⟩
  · intro m hm
    rcases getNextFrame_sessOutcome E fuel sess ex r h with
      ⟨hn, _, _⟩ | ⟨f, m2, s2, hp, _, hs, _⟩
    · rw [hm] at hn
      exact absurd hn (by simp)
    · rw [hs]
      exact (process_some_fields hp).1
  · intro hn
    rcases getNextFrame_sessOutcome E fuel sess ex r h with
      ⟨_, hs, _⟩ | ⟨f, m2, s2, hp, hr, _, _⟩
    · rw [hs]
    · rw [hn] at hr
      exact absurd hr (by simp)

theorem c5_frame_counter_witness :
    GetNextFrame (scriptExt pix0) 5 sess0 scrFrame =
      some (runOf 5 sess0 scrFrame) ∧
    (runOf 5 sess0 scrFrame).sess.frame_count_ = sess0.frame_count_ + 1 :=
  ⟨by decide,
    (c5_frame_counter (scriptExt pix0) 5 sess0 scrFrame (runOf 5 sess0 scrFrame)
      (by decide)).2.1 ⟨720, 1280, CV_8UC3, 7, 3840⟩ (by decide)⟩

/-- C4: once the first finished frame has been produced (counter at least 1),
a GetNextFrame call never changes the reported output width/height, and the
counter stays at least 1 — so all states reachable after the first frame
report the same dimensions. -/
theorem c4_dims_fixed {σ : Type} (E : Ext σ) (fuel : Nat) (sess : Session)
    (ex : σ) (r : RunResult σ) (h : GetNextFrame E fuel sess ex = some r)
    (hc : 1 ≤ sess.frame_count_) :
    r.sess.frame_width_ = sess.frame_width_ ∧
    r.sess.frame_height_ = sess.frame_height_ ∧
    1 ≤ r.sess.frame_count_ := by
  rcases getNextFrame_sessOutcome E fuel sess ex r h with
    ⟨_, hs, _⟩ | ⟨f, m, s2, hp, _, hs, _⟩
  · rw [hs]
    exact ⟨rfl, rfl, hc⟩
  · rcases process_some_fields hp with ⟨hcnt, hdims⟩
    rcases hdims (by omega) with ⟨hw, hh⟩
    rw [hs]
    exact ⟨hw, hh, by omega⟩

/-- The session used in the C4 witness: one frame already produced. -/
def sessA : Session := { sess0 with frame_count_ := 1 }

theorem c4_dims_fixed_witness :
    (runOf 5 sessA scrFrame).sess.frame_width_ = sessA.frame_width_ ∧
    (runOf 5 sessA scrFrame).sess.frame_height_ = sessA.frame_height_ ∧
    1 ≤ (runOf 5 sessA scrFrame).sess.frame_count_ :=
  c4_dims_fixed (scriptExt pix0) 5 sessA scrFrame (runOf 5 sessA scrFrame)
    (by decide) (by decide)

/-- C10: materialization is atomic — an unknown pixel format or an
unsupported component count makes `process_retrieved_frame` fail before any
member update, and any GetNextFrame call that returns no frame leaves the
frame counter, output dimensions, last PTS and last PTS-in-seconds exactly
as they were. -/
theorem c10_atomic_failure :
    (∀ pix sess f, pix (Frame.format f) = none →
      process_retrieved_frame pix sess f = none) ∧
    (∀ pix sess f nb, pix (Frame.format f) = some nb → nb ≠ 1 → nb ≠ 3 →
      process_retrieved_frame pix sess f = none) ∧
    (∀ (σ : Type) (E : Ext σ) fuel sess ex (r : RunResult σ),
      GetNextFrame E fuel sess ex = some r → r.ret = none →
      r.sess.frame_count_ = sess.frame_count_ ∧
      r.sess.frame_width_ = sess.frame_width_ ∧
      r.sess.frame_height_ = sess.frame_height_ ∧
      r.sess.current_frame_pts_ = sess.current_frame_pts_ ∧
      r.sess.current_frame_time_seconds_ = sess.current_frame_time_seconds_) := by
  refine ⟨?_, ?_, ?_⟩
  · intro pix sess f hfmt
    exact process_none_of_unknown pix sess f hfmt
  · intro pix sess f nb hfmt h1 h3
    exact (process_components pix sess f nb hfmt).2.2 h1 h3
  · intro σ E fuel sess ex r h hn
    rcases getNextFrame_sessOutcome E fuel sess ex r h with
      ⟨_, hs, _⟩ | ⟨f, m2, s2, hp, hr, _, _⟩
    · rw [hs]
      exact ⟨rfl, rfl, rfl, rfl, rfl⟩
    · rw [hn] at hr
      exact absurd hr (by simp)

/-- A frame whose pixel format is unknown to the descriptor table. -/
def frameBad : Frame :=
  { width := 64, height := 64, format := 7, pts := 0,
    best_effort_timestamp := 0, dataPlane := 9, linesize := 64 }

/-- A frame whose pixel format has 4 components. -/
def frame4 : Frame :=
  { width := 64, height := 64, format := 5, pts := 0,
    best_effort_timestamp := 0, dataPlane := 9, linesize := 256 }

theorem c10_atomic_failure_witness :
    process_retrieved_frame pix0 sess0 frameBad = none ∧
    process_retrieved_frame pix0 sess0 frame4 = none ∧
    (runOf 2 sess0 scrErr).sess.frame_count_ = sess0.frame_count_ :=
  ⟨c10_atomic_failure.1 pix0 sess0 frameBad (by decide),
   c10_atomic_failure.2.1 pix0 sess0 frame4 4 (by decide) (by decide) (by decide),
   (c10_atomic_failure.2.2 Script (scriptExt pix0) 2 sess0 scrErr
     (runOf 2 sess0 scrErr) (by decide) (by decide)).1⟩

/-- C7: the caller-visible return value of GetNextFrame does not distinguish
clean end-of-stream from a fatal abort — a call ending through the exhausted
flush path and a call ending through any fatal error path both return the
same "no frame" value. -/
theorem c7_eos_fatal_indistinguishable {σ1 σ2 : Type} (E1 : Ext σ1)
    (E2 : Ext σ2) (fuel1 fuel2 : Nat) (s1 s2 : Session) (e1 : σ1) (e2 : σ2)
    (r1 : RunResult σ1) (r2 : RunResult σ2)
    (h1 : GetNextFrame E1 fuel1 s1 e1 = some r1)
    (h2 : GetNextFrame E2 fuel2 s2 e2 = some r2)
    (hc : r1.how = Exit.flushExhausted)
    (hf : isFatalExit r2.how = true) :
    r1.ret = none ∧ r2.ret = none ∧ r1.ret = r2.ret := by
  have k1 : r1.ret = none := by
    rcases getNextFrame_sessOutcome E1 fuel1 s1 e1 r1 h1 with
      ⟨hn, _, _⟩ | ⟨f, m, s, hp, hr, hs, hg⟩
    · exact hn
    · rw [hg] at hc
      exact absurd hc (by decide)
  have k2 : r2.ret = none := by
    rcases getNextFrame_sessOutcome E2 fuel2 s2 e2 r2 h2 with
      ⟨hn, _, _⟩ | ⟨f, m, s, hp, hr, hs, hg⟩
    · exact hn
    · rw [hg] at hf
      exact absurd hf (by decide)
  exact ⟨k1, k2, by rw [k1, k2]⟩

/-- The script of the C7 witness: a pipeline that flushes cleanly. -/
def scrExhausted : Script := { script0 with srcFlushQ := [SubmitRes.ok] }

theorem c7_eos_fatal_indistinguishable_witness :
    (runOf 2 sess0 scrExhausted).ret = none ∧
    (runOf 2 sess0 scrErr).ret = none ∧
    (runOf 2 sess0 scrExhausted).ret = (runOf 2 sess0 scrErr).ret :=
  c7_eos_fatal_indistinguishable (scriptExt pix0) (scriptExt pix0) 2 2
    sess0 sess0 scrExhausted scrErr (runOf 2 sess0 scrExhausted)
    (runOf 2 sess0 scrErr) (by decide) (by decide) (by decide) (by decide)

/-- C2: one GetNextFrame iteration polls the stages output-first.  In order:
the buffersink is always tried first, and a produced frame is returned with
no decoder or reader interaction; only on its EAGAIN is the decoder tried; a
decoded frame is fed to the filter graph and control loops straight back to
the buffersink retrieve with no packet read; only when the decoder also
reports EAGAIN is a packet read; EOF from either stage breaks to the flush
path without touching the later stages. -/
theorem c2_poll_order {σ : Type} (E : Ext σ) (sess : Session) :
    (∀ (fuel : Nat) (ex : σ) f ex1, sess.initialized = true →
      E.sinkGet ex = (RecvRes.ok f, ex1) →
      GetNextFrame E (fuel + 1) sess ex =
        some (processExit E.pixDesc sess f ex1 [Ev.sinkGet (RecvRes.ok f)])) ∧
    (∀ (n : Nat) (ex : σ) tr f ex1, E.sinkGet ex = (RecvRes.ok f, ex1) →
      mainLoop E sess (n + 1) ex tr = some (LoopRes.out
        (processExit E.pixDesc sess f ex1 (tr ++ [Ev.sinkGet (RecvRes.ok f)])))) ∧
    (∀ (n : Nat) (ex : σ) tr ex1 f ex2 ex3,
      E.sinkGet ex = (RecvRes.eagain, ex1) →
      E.decRecv ex1 = (RecvRes.ok f, ex2) →
      E.srcAdd ex2 { f with pts := f.best_effort_timestamp } =
        (SubmitRes.ok, ex3) →
      mainLoop E sess (n + 1) ex tr = mainLoop E sess n ex3
        (tr ++ [Ev.sinkGet RecvRes.eagain] ++ [Ev.decRecv (RecvRes.ok f)]
          ++ [Ev.srcAdd SubmitRes.ok])) ∧
    (∀ (n : Nat) (ex : σ) tr ex1 ex2 p ex3,
      E.sinkGet ex = (RecvRes.eagain, ex1) →
      E.decRecv ex1 = (RecvRes.eagain, ex2) →
      E.readFrame ex2 = (ReadRes.ok p, ex3) →
      p.stream_index = sess.video_stream_idx →
      mainLoop E sess (n + 1) ex tr =
        (match busyLoop E sess p n ex3
            (tr ++ [Ev.sinkGet RecvRes.eagain] ++ [Ev.decRecv RecvRes.eagain]
              ++ [Ev.readFrame (ReadRes.ok p)]) with
         | none => none
         | some (BusyRes.out r) => some (LoopRes.out r)
         | some (BusyRes.accepted ex4 tr4) => mainLoop E sess n ex4 tr4)) ∧
    (∀ (n : Nat) (ex : σ) tr ex1, E.sinkGet ex = (RecvRes.eof, ex1) →
      mainLoop E sess (n + 1) ex tr =
        some (LoopRes.eofBreak ex1 (tr ++ [Ev.sinkGet RecvRes.eof]))) ∧
    (∀ (n : Nat) (ex : σ) tr ex1 ex2, E.sinkGet ex = (RecvRes.eagain, ex1) →
      E.decRecv ex1 = (RecvRes.eof, ex2) →
      mainLoop E sess (n + 1) ex tr = some (LoopRes.eofBreak ex2
        (tr ++ [Ev.sinkGet RecvRes.eagain] ++ [Ev.decRecv RecvRes.eof]))) := by
  refine ⟨?_, ?_, ?_, ?_, ?_, ?_⟩
  · intro fuel ex f ex1 hinit hsg
    simp only [GetNextFrame, if_pos hinit, mainLoop, hsg, List.nil_append]
  · intro n ex tr f ex1 hsg
    simp only [mainLoop, hsg]
  · intro n ex tr ex1 f ex2 ex3 hsg hdr hsa
    simp only [mainLoop, hsg, hdr, hsa]
  · intro n ex tr ex1 ex2 p ex3 hsg hdr hrf hidx
    simp only [mainLoop, hsg, hdr, hrf]
    rw [if_pos hidx]
  · intro n ex tr ex1 hsg
    simp only [mainLoop, hsg]
  · intro n ex tr ex1 ex2 hsg hdr
    simp only [mainLoop, hsg, hdr]

/-- Script for the C2 witness loop-back conjunct: the buffersink needs input,
the decoder holds a frame, and the frame is accepted by the filter graph. -/
def scrLoopBack : Script :=
  { script0 with sinkQ := [RecvRes.eagain, RecvRes.ok frameA],
                 decQ := [RecvRes.ok frameA], srcAddQ := [SubmitRes.ok] }

/-- `scrLoopBack` after its buffersink EAGAIN was popped. -/
def scrLoopBack1 : Script :=
  { script0 with sinkQ := [RecvRes.ok frameA], decQ := [RecvRes.ok frameA],
                 srcAddQ := [SubmitRes.ok] }

/-- `scrLoopBack` after the decoder frame was also popped. -/
def scrLoopBack2 : Script :=
  { script0 with sinkQ := [RecvRes.ok frameA], srcAddQ := [SubmitRes.ok] }

/-- `scrLoopBack` after the filter-graph submit was also popped. -/
def scrLoopBack3 : Script := { script0 with sinkQ := [RecvRes.ok frameA] }

/-- Script for the C2 witness decoder-EOF conjunct. -/
def scrDecEof : Script :=
  { script0 with sinkQ := [RecvRes.eagain], decQ := [RecvRes.eof] }

/-- `scrDecEof` after its buffersink EAGAIN was popped. -/
def scrDecEof1 : Script := { script0 with decQ := [RecvRes.eof] }

theorem c2_poll_order_witness :
    GetNextFrame (scriptExt pix0) 3 sess0 scrFrame =
      some (processExit pix0 sess0 frameA script0
        [Ev.sinkGet (RecvRes.ok frameA)]) ∧
    mainLoop (scriptExt pix0) sess0 2 scrLoopBack [] =
      mainLoop (scriptExt pix0) sess0 1 scrLoopBack3
        ([] ++ [Ev.sinkGet RecvRes.eagain] ++ [Ev.decRecv (RecvRes.ok frameA)]
          ++ [Ev.srcAdd SubmitRes.ok]) ∧
    mainLoop (scriptExt pix0) sess0 2 scrDecEof [] =
      some (LoopRes.eofBreak script0
        ([] ++ [Ev.sinkGet RecvRes.eagain] ++ [Ev.decRecv RecvRes.eof])) := by
  refine ⟨?_, ?_, ?_⟩
  · exact (c2_poll_order (scriptExt pix0) sess0).1 2 scrFrame frameA script0
      (by decide) (by decide)
  · exact (c2_poll_order (scriptExt pix0) sess0).2.2.1 1 scrLoopBack []
      scrLoopBack1 frameA scrLoopBack2 scrLoopBack3
      (by decide) (by decide) (by decide)
  · exact (c2_poll_order (scriptExt pix0) sess0).2.2.2.2.2 1 scrDecEof []
      scrDecEof1 script0 (by decide) (by decide)

theorem processExit_trace {σ : Type} (pix : Int → Option Nat) (sess : Session)
    (f : Frame) (ex : σ) (tr : List Ev) :
    (processExit pix sess f ex tr).trace = tr := by
  unfold processExit
  rcases h : process_retrieved_frame pix sess f with _ | ⟨m, s2⟩ <;> rfl

theorem busyLoop_sendOkCount {σ : Type} (E : Ext σ) (sess : Session)
    (p : Packet) :
    ∀ (n : Nat) (ex : σ) (tr : List Ev) (res : BusyRes σ),
      busyLoop E sess p n ex tr = some res →
      sendOkCount p (busyResTrace res) =
        sendOkCount p tr + (if isAccepted res then 1 else 0) := by
  intro n
  induction n with
  | zero =>
    intro ex tr res h
    simp [busyLoop] at h
  | succ n ih =>
    intro ex tr res h
    rcases hsp : E.sendPacket ex p with ⟨sr, ex1⟩
    simp only [busyLoop, hsp] at h
    cases sr with
    | ok =>
      injection h with h1
      subst h1
      simp [busyResTrace, isAccepted, sendOkCount, List.countP_append,
        List.countP_cons, isOkSend]
    | err =>
      injection h with h1
      subst h1
      simp [busyResTrace, isAccepted, sendOkCount, List.countP_append,
        List.countP_cons, isOkSend]
    | eagain =>
      rcases hdr : E.decRecv ex1 with ⟨dr, ex2⟩
      simp only [hdr] at h
      cases dr with
      | ok f =>
        rcases hsa : E.srcAdd ex2 f with ⟨ar, ex3⟩
        simp only [hsa] at h
        cases ar with
        | err =>
          injection h with h1
          subst h1
          simp [busyResTrace, isAccepted, sendOkCount, List.countP_append,
            List.countP_cons, isOkSend]
        | ok =>
          rcases hsg : E.sinkGet ex3 with ⟨gr, ex4⟩
          simp only [hsg] at h
          cases gr with
          | ok g =>
            injection h with h1
            subst h1
            simp [busyResTrace, isAccepted, processExit_trace, sendOkCount,
              List.countP_append, List.countP_cons, isOkSend]
          | eagain =>
            rw [ih ex4 _ res h]
            simp [sendOkCount, List.countP_append, List.countP_cons, isOkSend]
          | eof =>
            rw [ih ex4 _ res h]
            simp [sendOkCount, List.countP_append, List.countP_cons, isOkSend]
          | err =>
            injection h with h1
            subst h1
            simp [busyResTrace, isAccepted, sendOkCount, List.countP_append,
              List.countP_cons, isOkSend]
      | eagain =>
        injection h with h1
        subst h1
        simp [busyResTrace, isAccepted, sendOkCount, List.countP_append,
          List.countP_cons, isOkSend]
      | eof =>
        injection h with h1
        subst h1
        simp [busyResTrace, isAccepted, sendOkCount, List.countP_append,
          List.countP_cons, isOkSend]
      | err =>
        injection h with h1
        subst h1
        simp [busyResTrace, isAccepted, sendOkCount, List.countP_append,
          List.countP_cons, isOkSend]

/-- C3 (amended): when `avcodec_send_packet` reports EAGAIN, the retry loop
drains one decoded frame, feeds it to the filter graph, then opportunistically
tries the buffersink: a produced frame is returned immediately — and in that
case the pending packet was never accepted by the decoder (it is released and
skipped, no accepted-send event is added); if the buffersink instead reports
EAGAIN, the same packet is resubmitted; if the drain yields neither a frame
nor room (decoder EAGAIN or EOF while the submit is still busy), the call
aborts with no frame; and a packet is never accepted more than once per retry
loop (exactly once when the loop ends in acceptance, never otherwise). -/
theorem c3_busy_drain {σ : Type} (E : Ext σ) (sess : Session) (p : Packet) :
    (∀ (n : Nat) (ex : σ) tr ex1 f ex2 ex3 g ex4,
      E.sendPacket ex p = (SendRes.eagain, ex1) →
      E.decRecv ex1 = (RecvRes.ok f, ex2) →
      E.srcAdd ex2 f = (SubmitRes.ok, ex3) →
      E.sinkGet ex3 = (RecvRes.ok g, ex4) →
      busyLoop E sess p (n + 1) ex tr = some (BusyRes.out
        (processExit E.pixDesc sess g ex4
          (tr ++ [Ev.sendPacket p SendRes.eagain] ++ [Ev.decRecv (RecvRes.ok f)]
            ++ [Ev.srcAdd SubmitRes.ok] ++ [Ev.sinkGet (RecvRes.ok g)]))) ∧
      sendOkCount p ((processExit E.pixDesc sess g ex4
        (tr ++ [Ev.sendPacket p SendRes.eagain] ++ [Ev.decRecv (RecvRes.ok f)]
          ++ [Ev.srcAdd SubmitRes.ok] ++ [Ev.sinkGet (RecvRes.ok g)])).trace) =
        sendOkCount p tr) ∧
    (∀ (n : Nat) (ex : σ) tr ex1 f ex2 ex3 ex4,
      E.sendPacket ex p = (SendRes.eagain, ex1) →
      E.decRecv ex1 = (RecvRes.ok f, ex2) →
      E.srcAdd ex2 f = (SubmitRes.ok, ex3) →
      E.sinkGet ex3 = (RecvRes.eagain, ex4) →
      busyLoop E sess p (n + 1) ex tr = busyLoop E sess p n ex4
        (tr ++ [Ev.sendPacket p SendRes.eagain] ++ [Ev.decRecv (RecvRes.ok f)]
          ++ [Ev.srcAdd SubmitRes.ok] ++ [Ev.sinkGet RecvRes.eagain])) ∧
    (∀ (n : Nat) (ex : σ) tr ex1 dr ex2,
      E.sendPacket ex p = (SendRes.eagain, ex1) →
      E.decRecv ex1 = (dr, ex2) →
      (dr = RecvRes.eagain ∨ dr = RecvRes.eof) →
      busyLoop E sess p (n + 1) ex tr = some (BusyRes.out
        ⟨none, sess, ex2, tr ++ [Ev.sendPacket p SendRes.eagain]
          ++ [Ev.decRecv dr], Exit.busyStall⟩)) ∧
    (∀ (n : Nat) (ex : σ) tr (res : BusyRes σ),
      busyLoop E sess p n ex tr = some res →
      sendOkCount p (busyResTrace res) =
        sendOkCount p tr + (if isAccepted res then 1 else 0)) := by
  refine ⟨?_, ?_, ?_, ?_⟩
  · intro n ex tr ex1 f ex2 ex3 g ex4 hsp hdr hsa hsg
    constructor
    · simp only [busyLoop, hsp, hdr, hsa, hsg]
    · rw [processExit_trace]
      simp [sendOkCount, List.countP_append, List.countP_cons, isOkSend]
  · intro n ex tr ex1 f ex2 ex3 ex4 hsp hdr hsa hsg
    simp only [busyLoop, hsp, hdr, hsa, hsg]
  · intro n ex tr ex1 dr ex2 hsp hdr hd
    rcases hd with rfl | rfl <;> simp only [busyLoop, hsp, hdr]
  · exact busyLoop_sendOkCount E sess p

/-- The packet of the C3 scenarios, on the video stream. -/
def pktA : Packet := { stream_index := 0, pid := 42 }

/-- Script for the C3 counterexample and witness: the decoder is busy once,
holds one decodable frame, the filter graph accepts it and then immediately
produces a finished frame, so the opportunistic retrieve fires. -/
def scrBusy : Script :=
  { script0 with sinkQ := [RecvRes.eagain, RecvRes.ok frameA],
                 decQ := [RecvRes.eagain, RecvRes.ok frameA],
                 readQ := [ReadRes.ok pktA],
                 sendQ := [SendRes.eagain],
                 srcAddQ := [SubmitRes.ok] }

/-- The C3 counterexample run, started from `scrBusy`. -/
def c3run : RunResult Script := runOf 6 sess0 scrBusy

/-- C3 counterexample: the claim asserts that in the busy-drain scenario "no
packet is duplicated or skipped", but when the opportunistic buffersink
retrieve produces a frame the C++ code returns it after `av_packet_unref` on
a packet the decoder never accepted: the run below returns a frame while its
trace shows the read packet was submitted only with result EAGAIN and never
accepted — the packet's payload is dropped (skipped). -/
theorem c3_counterexample :
    GetNextFrame (scriptExt pix0) 6 sess0 scrBusy = some c3run ∧
    c3run.ret = some ⟨720, 1280, CV_8UC3, 7, 3840⟩ ∧
    Ev.readFrame (ReadRes.ok pktA) ∈ c3run.trace ∧
    sendOkCount pktA c3run.trace = 0 := by
  refine ⟨by decide, by decide, by decide, by decide⟩

/-- Script state at entry to the retry loop in the C3 witness. -/
def scrBusyLoop : Script :=
  { script0 with sinkQ := [RecvRes.ok frameA], decQ := [RecvRes.ok frameA],
                 sendQ := [SendRes.eagain], srcAddQ := [SubmitRes.ok] }

/-- `scrBusyLoop` after the EAGAIN send was popped. -/
def scrBusyLoop1 : Script :=
  { script0 with sinkQ := [RecvRes.ok frameA], decQ := [RecvRes.ok frameA],
                 srcAddQ := [SubmitRes.ok] }

/-- `scrBusyLoop` after the decoder drain was also popped. -/
def scrBusyLoop2 : Script :=
  { script0 with sinkQ := [RecvRes.ok frameA], srcAddQ := [SubmitRes.ok] }

/-- `scrBusyLoop` after the filter-graph submit was also popped. -/
def scrBusyLoop3 : Script := { script0 with sinkQ := [RecvRes.ok frameA] }

/-- `scrBusyLoop` after everything was popped. -/
def scrBusyLoop4 : Script := script0

theorem c3_busy_drain_witness :
    busyLoop (scriptExt pix0) sess0 pktA 2 scrBusyLoop [] =
      some (BusyRes.out (processExit pix0 sess0 frameA scrBusyLoop4
        ([] ++ [Ev.sendPacket pktA SendRes.eagain]
          ++ [Ev.decRecv (RecvRes.ok frameA)] ++ [Ev.srcAdd SubmitRes.ok]
          ++ [Ev.sinkGet (RecvRes.ok frameA)]))) ∧
    sendOkCount pktA ((processExit pix0 sess0 frameA scrBusyLoop4
      ([] ++ [Ev.sendPacket pktA SendRes.eagain]
        ++ [Ev.decRecv (RecvRes.ok frameA)] ++ [Ev.srcAdd SubmitRes.ok]
        ++ [Ev.sinkGet (RecvRes.ok frameA)])).trace) = sendOkCount pktA [] := by
  exact (c3_busy_drain (scriptExt pix0) sess0 pktA).1 1 scrBusyLoop []
    scrBusyLoop1 frameA scrBusyLoop2 scrBusyLoop3 frameA scrBusyLoop4
    (by decide) (by decide) (by decide) (by decide)

/-- C1 counterexample: the claim asserts that after the terminal state is
reached (flush drained to EndOfStream) subsequent calls perform no further
stage I/O.  The C++ session has no terminal flag: below, a first call ends
with the clean flush exhaustion, and the second call on the resulting state
returns no frame but performs stage I/O again (buffersink retrieve, decoder
flush submit, decoder retrieve, buffer-source flush: a non-empty trace). -/
theorem c1_counterexample :
    GetNextFrame (scriptExt pix0) 2 sess0 scrExhausted =
      some (runOf 2 sess0 scrExhausted) ∧
    (runOf 2 sess0 scrExhausted).how = Exit.flushExhausted ∧
    (runOf 2 sess0 scrExhausted).ret = none ∧
    GetNextFrame (scriptExt pix0) 2 sess0 (runOf 2 sess0 scrExhausted).ext =
      some (runOf 2 sess0 script0) ∧
    (runOf 2 sess0 script0).ret = none ∧
    (runOf 2 sess0 script0).trace ≠ [] :=
  ⟨by decide, by decide, by decide, by decide, by decide, by decide⟩

/-- C1 (amended): once the pipeline is exhausted — every stage keeps
reporting end-of-stream — every subsequent GetNextFrame call still returns
"no frame" and leaves the session unchanged, but the code has no terminal
flag, so each such call re-executes the flush-sequence stage I/O (the trace
is never empty) instead of short-circuiting. -/
theorem c1_no_frame_after_exhaustion {σ : Type} (E : Ext σ) (sess : Session)
    (fuel : Nat) (ex ex1 ex2 ex3 ex4 : σ) (r0 : SendRes) (sr : SubmitRes)
    (hinit : sess.initialized = true) (hfuel : 1 ≤ fuel)
    (hsink : E.sinkGet ex = (RecvRes.eof, ex1))
    (hsf : E.sendFlush ex1 = (r0, ex2))
    (hdec : E.decRecv ex2 = (RecvRes.eof, ex3))
    (hfl : E.srcFlush ex3 = (sr, ex4))
    (hnoframe : ∀ g ex5, E.sinkGet ex4 ≠ (RecvRes.ok g, ex5)) :
    (GetNextFrame E fuel sess ex).map RunResult.ret = some none ∧
    (GetNextFrame E fuel sess ex).map RunResult.sess = some sess ∧
    (GetNextFrame E fuel sess ex).map (fun r => r.trace.isEmpty) =
      some false := by
  obtain ⟨n, rfl⟩ : ∃ n, fuel = n + 1 :=
    ⟨fuel - 1, (Nat.succ_pred_eq_of_pos hfuel).symm⟩
  have hml : mainLoop E sess (n + 1) ex [] =
      some (LoopRes.eofBreak ex1 ([] ++ [Ev.sinkGet RecvRes.eof])) := by
    simp only [mainLoop, hsink]
  have hdd : flushDecDrain E sess (n + 1) ex2
      ([] ++ [Ev.sinkGet RecvRes.eof] ++ [Ev.sendFlush r0]) =
      some (DrainRes.done ex3 ([] ++ [Ev.sinkGet RecvRes.eof]
        ++ [Ev.sendFlush r0] ++ [Ev.decRecv RecvRes.eof])) := by
    simp only [flushDecDrain, hdec]
  unfold GetNextFrame
  rw [if_pos hinit, hml]
  dsimp only
  unfold flushSeq
  rw [hsf]
  dsimp only
  rw [hdd]
  dsimp only
  rw [hfl]
  cases sr with
  | err => exact ⟨rfl, rfl, rfl⟩
  | ok =>
    dsimp only
    unfold flushSinkDrain
    rcases hsg : E.sinkGet ex4 with ⟨gr, ex5⟩
    cases gr with
    | ok g => exact absurd hsg (hnoframe g ex5)
    | eagain => exact ⟨rfl, rfl, rfl⟩
    | eof => exact ⟨rfl, rfl, rfl⟩
    | err => exact ⟨rfl, rfl, rfl⟩

theorem c1_no_frame_after_exhaustion_witness :
    (GetNextFrame (scriptExt pix0) 2 sess0 script0).map RunResult.ret =
      some none ∧
    (GetNextFrame (scriptExt pix0) 2 sess0 script0).map RunResult.sess =
      some sess0 ∧
    (GetNextFrame (scriptExt pix0) 2 sess0 script0).map
      (fun r => r.trace.isEmpty) = some false :=
  c1_no_frame_after_exhaustion (scriptExt pix0) sess0 2 script0 script0
    script0 script0 script0 SendRes.err SubmitRes.err (by decide) (by decide)
    (by decide) (by decide) (by decide) (by decide)
    (fun g ex5 h => by simp [scriptExt, pop, script0] at h)

/-- C8: materializing a finished frame supports exactly component counts 1
(grayscale, CV_8UC1) and 3 (color, CV_8UC3); a frame whose descriptor
reports any other component count makes `process_retrieved_frame` fail and
the GetNextFrame call that retrieved it return no frame. -/
theorem c8_component_count {σ : Type} (E : Ext σ) (sess : Session) :
    (∀ pix sess2 f nb, pix (Frame.format f) = some nb →
      (nb = 1 → ∃ s2, process_retrieved_frame pix sess2 f =
        some (⟨f.height, f.width, CV_8UC1, f.dataPlane, f.linesize⟩, s2)) ∧
      (nb = 3 → ∃ s2, process_retrieved_frame pix sess2 f =
        some (⟨f.height, f.width, CV_8UC3, f.dataPlane, f.linesize⟩, s2)) ∧
      (nb ≠ 1 → nb ≠ 3 → process_retrieved_frame pix sess2 f = none)) ∧
    (∀ (fuel : Nat) (ex : σ) f nb ex1, sess.initialized = true →
      E.sinkGet ex = (RecvRes.ok f, ex1) →
      E.pixDesc (Frame.format f) = some nb → nb ≠ 1 → nb ≠ 3 →
      GetNextFrame E (fuel + 1) sess ex =
        some ⟨none, sess, ex1, [Ev.sinkGet (RecvRes.ok f)],
          Exit.processFailed⟩) := by
  refine ⟨?_, ?_⟩
  · intro pix sess2 f nb hfmt
    exact process_components pix sess2 f nb hfmt
  · intro fuel ex f nb ex1 hinit hsg hfmt h1 h3
    have hp : process_retrieved_frame E.pixDesc sess f = none :=
      (process_components E.pixDesc sess f nb hfmt).2.2 h1 h3
    simp only [GetNextFrame, if_pos hinit, mainLoop, hsg, processExit, hp,
      List.nil_append]

/-- Script delivering the 4-component frame straight from the buffersink. -/
def scrFrame4 : Script := { script0 with sinkQ := [RecvRes.ok frame4] }

theorem c8_component_count_witness :
    process_retrieved_frame pix0 sess0 frame4 = none ∧
    GetNextFrame (scriptExt pix0) 3 sess0 scrFrame4 =
      some ⟨none, sess0, script0, [Ev.sinkGet (RecvRes.ok frame4)],
        Exit.processFailed⟩ :=
  ⟨((c8_component_count (scriptExt pix0) sess0).1 pix0 sess0 frame4 4
      (by decide)).2.2 (by decide) (by decide),
   (c8_component_count (scriptExt pix0) sess0).2 2 scrFrame4 frame4 4 script0
     (by decide) (by decide) (by decide) (by decide) (by decide)⟩

end FFmpeg
